import Mathlib

/-!
Verification of the browsermcp session bridge: a shallow embedding of the
connection lifecycle, the socket message sender, the MCP dispatch handlers
and the HTTP/JSON-RPC front door, with theorems settling the frozen claims.
-/

namespace BrowserMcp

/-! JSON-RPC identifier values.  The TypeScript sources declare
`id: string | number | null`; JavaScript truthiness decides the
`request?.id || null` fallback used on some reply paths. -/

inductive JsonId where
  | str (s : String)
  | num (n : Int)
  | null
deriving DecidableEq, Repr

/-- JavaScript truthiness of an id: `0`, the empty string and `null` are falsy. -/
def JsonId.truthy : JsonId → Bool
  | .str s => s != ""
  | .num n => n != 0
  | .null => false

/-- The expression `request?.id || null`: an absent request or a falsy id
collapses to `null`. -/
def idOrNull : Option JsonId → JsonId
  | none => .null
  | some i => if i.truthy then i else .null

/-! Tool data model.  A tool schema is the `{name, description, inputSchema}`
triple the list handlers serialize; the input schema is abstracted to the
ordered field names of the zod `arguments` object. -/

structure ToolSchema where
  name : String
  description : String
  inputSchema : List String
deriving DecidableEq, Repr

structure ContentBlock where
  type : String
  text : String
deriving DecidableEq, Repr

structure ToolResult where
  content : List ContentBlock
  isError : Bool
deriving DecidableEq, Repr

/-- Outcome of awaiting a tool handler: a result, or a thrown error whose
`String(error)` rendering the catch blocks use. -/
inductive HandlerOutcome where
  | ok (result : ToolResult)
  | thrown (error : String)

/-- Modelled from the spec: the Context class (src/context.ts is not among the
source files; only its callers are).  Per the spec it owns the single current
websocket slot; `hasWs` is true iff the slot is occupied, assignment installs a
socket, `clearWs` empties the slot.  Sockets are identified by numbers. -/
structure Context where
  ws : Option Nat
deriving DecidableEq, Repr

def Context.hasWs (c : Context) : Bool := c.ws.isSome

/-- Tool arguments, abstracted to an association list of JSON leaf values. -/
def ToolArgs := List (String × String)

structure Tool where
  schema : ToolSchema
  handle : Context → ToolArgs → HandlerOutcome

/-! The static registry: `snapshotTools` of part_001 lines 59 to 74, in its
registration order; each entry's name, description and argument field names
are those of the corresponding zod tool declaration in part_003. -/

def registeredToolSchemas : List ToolSchema :=
  [⟨"browser_navigate", "Navigate to a URL", ["url"]⟩,
   ⟨"browser_go_back", "Go back to the previous page", []⟩,
   ⟨"browser_go_forward", "Go forward to the next page", []⟩,
   ⟨"browser_snapshot", "Capture accessibility snapshot of the current page", []⟩,
   ⟨"browser_click", "Perform click on a web page", ["element", "ref"]⟩,
   ⟨"browser_hover", "Hover over element on page", ["element", "ref"]⟩,
   ⟨"browser_type", "Type text into editable element",
      ["element", "ref", "text", "submit"]⟩,
   ⟨"browser_select_option", "Select an option in a dropdown",
      ["element", "ref", "values"]⟩,
   ⟨"browser_press_key", "Press a key on the keyboard", ["key"]⟩,
   ⟨"browser_wait", "Wait for a specified time in seconds", ["time"]⟩,
   ⟨"browser_get_console_logs", "Get the console logs from the browser", []⟩,
   ⟨"browser_screenshot", "Take a screenshot of the current page", []⟩]

/-! MCP server dispatch: the CallToolRequestSchema handler of part_000 lines
60 to 80 (identical in src/server.ts lines 51 to 71).  An unknown name yields
an error result; a thrown handler error is caught and rendered as text. -/

def toolNotFoundResult (name : String) : ToolResult :=
  ⟨[⟨"text", "Tool \"" ++ name ++ "\" not found"⟩], true⟩

def caughtErrorResult (e : String) : ToolResult :=
  ⟨[⟨"text", e⟩], true⟩

def callToolRequestHandler (tools : List Tool) (ctx : Context)
    (name : String) (args : ToolArgs) : ToolResult :=
  match tools.find? (fun t => t.schema.name == name) with
  | none => toolNotFoundResult name
  | some tool =>
    match tool.handle ctx args with
    | .ok r => r
    | .thrown e => caughtErrorResult e

/-! Connection lifecycle: `handleConnection` of part_000 lines 40 to 48 (the
inline connection listener of part_001 lines 143 to 160 has the same body plus
logging).  The primitive effects are recorded as an ordered action trace:
close the old socket when one is current, install the new socket as current,
register its close observer. -/

inductive WsAction where
  | closeSocket (id : Nat)
  | installCurrent (id : Nat)
  | registerCloseObserver (id : Nat)
deriving DecidableEq, Repr

def handleConnection (cur : Option Nat) (newWs : Nat) : List WsAction :=
  (match cur with
   | some old => [WsAction.closeSocket old]
   | none => []) ++
  [WsAction.installCurrent newWs, WsAction.registerCloseObserver newWs]

def applyAction (ctx : Context) : WsAction → Context
  | .closeSocket _ => ctx
  | .installCurrent id => ⟨some id⟩
  | .registerCloseObserver _ => ctx

def runActions (ctx : Context) (as : List WsAction) : Context :=
  as.foldl applyAction ctx

/-! The socket message sender of part_003 lines 5 to 32.  The promise settles
at the first of the write callback and the rejection timer; the code registers
no message listener, so the inbound agent responses are a parameter the
outcome never consults. -/

inductive SendOutcome where
  | resolvedSuccess
  | rejectedWriteError (msg : String)
  | rejectedTimeout
deriving DecidableEq, Repr

structure AgentResponse where
  correlationId : Nat
  arrivalMs : Nat
  payload : String
deriving DecidableEq, Repr

/-- The write callback is `some (atMs, err)` when `ws.send`'s callback fires at
time `atMs` with optional error, `none` when it never fires; the timer rejects
at `timeoutMs` unless the callback cleared it first. -/
def sendSocketMessage (timeoutMs : Nat) (writeCallback : Option (Nat × Option String))
    (_responses : List AgentResponse) : SendOutcome :=
  match writeCallback with
  | some (atMs, err) =>
    if atMs < timeoutMs then
      match err with
      | some e => .rejectedWriteError e
      | none => .resolvedSuccess
    else .rejectedTimeout
  | none => .rejectedTimeout

/-! HTTP/JSON-RPC front door of part_001.  Requests and responses mirror the
JsonRpcRequest/JsonRpcResponse interfaces; `createJsonRpcError` and
`createJsonRpcSuccess` are lines 121 to 136. -/

structure JsonRpcErrorBody where
  code : Int
  message : String
  data : Option String
deriving DecidableEq, Repr

inductive RpcResult where
  | initResult
  | toolsList (tools : List ToolSchema)
  | toolResult (r : ToolResult)
  | emptyObj
deriving DecidableEq, Repr

structure JsonRpcResponse where
  id : JsonId
  result : Option RpcResult
  error : Option JsonRpcErrorBody
deriving DecidableEq, Repr

def createJsonRpcError (id : JsonId) (code : Int) (message : String)
    (data : Option String) : JsonRpcResponse :=
  ⟨id, none, some ⟨code, message, data⟩⟩

def createJsonRpcSuccess (id : JsonId) (result : RpcResult) : JsonRpcResponse :=
  ⟨id, some result, none⟩

inductive HttpResponse where
  | json (status : Nat) (body : JsonRpcResponse)
  | noContent (status : Nat)
deriving DecidableEq, Repr

/-- Parameters of a tools/call request: `params.name` and `params.arguments`. -/
structure CallParams where
  name : Option String
  args : ToolArgs

structure JsonRpcRequest where
  jsonrpc : String
  id : JsonId
  method : String
  params : Option CallParams

/-- The destructuring `const { name } = request.params || {}` followed by the
`if (!name)` guard: the name survives only when present and truthy (the empty
string is falsy in JavaScript). -/
def paramsName : Option CallParams → Option String
  | none => none
  | some p =>
    match p.name with
    | none => none
    | some n => if n == "" then none else some n

/-- The expression `args || {}`: absent arguments become the empty object. -/
def paramsArgs : Option CallParams → ToolArgs
  | none => []
  | some p => p.args

/-- The `toolsByName` map of part_001 line 140, built by inserting the
registration list in order, so for a duplicated name the later entry wins:
lookup is first match over the reversed list. -/
def toolsByName (tools : List Tool) (n : String) : Option Tool :=
  tools.reverse.find? (fun t => t.schema.name == n)

/-- Outcome of one HTTP tools/call request: the response sent, and whether the
tool handler was invoked (the front door itself never writes to a socket; only
handlers do, so no handler invocation means no socket write). -/
structure CallOutcome where
  response : HttpResponse
  handlerInvoked : Bool
deriving Repr

/-- The standalone /tools/call endpoint of part_001 lines 217 to 289: envelope
guard, name guard, registry lookup, connection guard, then handler invocation,
with the route-level catch rendering a thrown error as -32603. -/
def toolsCallEndpoint (tools : List Tool) (ctx : Context)
    (req : Option JsonRpcRequest) : CallOutcome :=
  match req with
  | none =>
    ⟨.json 400 (createJsonRpcError (idOrNull none) (-32600) "Invalid Request"
        (some "Expected JSON-RPC 2.0 request with method 'tools/call'")), false⟩
  | some r =>
    if r.jsonrpc != "2.0" || r.method != "tools/call" then
      ⟨.json 400 (createJsonRpcError (idOrNull (some r.id)) (-32600) "Invalid Request"
          (some "Expected JSON-RPC 2.0 request with method 'tools/call'")), false⟩
    else
      match paramsName r.params with
      | none =>
        ⟨.json 400 (createJsonRpcError r.id (-32602) "Invalid params"
            (some "Tool name is required")), false⟩
      | some n =>
        match toolsByName tools n with
        | none =>
          ⟨.json 404 (createJsonRpcError r.id (-32601) "Method not found"
              (some ("Tool '" ++ n ++ "' not found"))), false⟩
        | some tool =>
          if !ctx.hasWs then
            ⟨.json 503 (createJsonRpcError r.id (-32000) "No browser tab connected"
                (some "Connect the Browser MCP extension and try again")), false⟩
          else
            match tool.handle ctx (paramsArgs r.params) with
            | .ok result =>
              ⟨.json 200 (createJsonRpcSuccess r.id (.toolResult result)), true⟩
            | .thrown e =>
              ⟨.json 500 (createJsonRpcError (idOrNull (some r.id)) (-32603)
                  "Internal error" (some e)), true⟩

/-- The unified /mcp endpoint's POST branch, part_001 lines 326 to 434: the
envelope guard then the switch over `request.method`, with the route-level
catch rendering a thrown handler error as -32603 via `req.body?.id || null`. -/
def mcpPost (tools : List Tool) (ctx : Context)
    (req : Option JsonRpcRequest) : HttpResponse :=
  match req with
  | none =>
    .json 400 (createJsonRpcError (idOrNull none) (-32600) "Invalid Request"
        (some "Expected JSON-RPC 2.0 request"))
  | some r =>
    if r.jsonrpc != "2.0" then
      .json 400 (createJsonRpcError (idOrNull (some r.id)) (-32600) "Invalid Request"
          (some "Expected JSON-RPC 2.0 request"))
    else
      match r.method with
      | "initialize" => .json 200 (createJsonRpcSuccess r.id .initResult)
      | "tools/list" =>
        .json 200 (createJsonRpcSuccess r.id (.toolsList (tools.map Tool.schema)))
      | "tools/call" =>
        match paramsName r.params with
        | none =>
          .json 400 (createJsonRpcError r.id (-32602) "Invalid params"
              (some "Tool name is required"))
        | some n =>
          match toolsByName tools n with
          | none =>
            .json 404 (createJsonRpcError r.id (-32601) "Method not found"
                (some ("Tool '" ++ n ++ "' not found")))
          | some tool =>
            if !ctx.hasWs then
              .json 503 (createJsonRpcError r.id (-32000) "No browser tab connected"
                  (some "Connect the Browser MCP extension and try again"))
            else
              match tool.handle ctx (paramsArgs r.params) with
              | .ok result => .json 200 (createJsonRpcSuccess r.id (.toolResult result))
              | .thrown e =>
                .json 500 (createJsonRpcError (idOrNull (some r.id)) (-32603)
                    "Internal error" (some e))
      | "ping" => .json 200 (createJsonRpcSuccess r.id .emptyObj)
      | "notifications/initialized" => .noContent 204
      | m =>
        .json 404 (createJsonRpcError r.id (-32601) "Method not found"
            (some ("Method '" ++ m ++ "' not supported")))

/-- The /tools/call endpoint of src/index.ts lines 177 to 245 (the older front
door): same envelope and name guards, first-match registry lookup, but no
connection guard at all — it builds a fresh empty Context and invokes the
handler with it; a thrown error reaches the route catch as -32603. -/
def toolsCallLegacy (tools : List Tool) (req : Option JsonRpcRequest) : CallOutcome :=
  match req with
  | none =>
    ⟨.json 400 (createJsonRpcError (idOrNull none) (-32600) "Invalid Request"
        (some "Expected JSON-RPC 2.0 request with method 'tools/call'")), false⟩
  | some r =>
    if r.jsonrpc != "2.0" || r.method != "tools/call" then
      ⟨.json 400 (createJsonRpcError (idOrNull (some r.id)) (-32600) "Invalid Request"
          (some "Expected JSON-RPC 2.0 request with method 'tools/call'")), false⟩
    else
      match paramsName r.params with
      | none =>
        ⟨.json 400 (createJsonRpcError r.id (-32602) "Invalid params"
            (some "Tool name is required")), false⟩
      | some n =>
        match tools.find? (fun t => t.schema.name == n) with
        | none =>
          ⟨.json 404 (createJsonRpcError r.id (-32601) "Method not found"
              (some ("Tool '" ++ n ++ "' not found"))), false⟩
        | some tool =>
          match tool.handle ⟨none⟩ (paramsArgs r.params) with
          | .ok result =>
            ⟨.json 200 (createJsonRpcSuccess r.id (.toolResult result)), true⟩
          | .thrown e =>
            ⟨.json 500 (createJsonRpcError (idOrNull (some r.id)) (-32603)
                "Internal error" (some e)), true⟩

/-- Modelled from the spec: a registered tool's handler (the tool modules
src/tools are not among the source files).  Per the spec a handler reaches the
agent through the connection's send and fails with a NoConnection error when no
current connection exists; with a connection it composes its result from the
agent payload. -/
def clickToolModel : Tool :=
  ⟨⟨"browser_click", "Perform click on a web page", ["element", "ref"]⟩,
   fun ctx _ =>
     if ctx.hasWs then .ok ⟨[⟨"text", "Clicked element"⟩], false⟩
     else .thrown "Error: No connection to browser extension"⟩

/-- The registry instantiated with inert handlers: its schemas are exactly the
registration list, which is all the list handlers consult. -/
def registryToolsModel : List Tool :=
  registeredToolSchemas.map (fun s => ⟨s, fun _ _ => HandlerOutcome.ok ⟨[], false⟩⟩)

/-- The JSON-RPC error code carried by a response, when one is. -/
def responseErrorCode : HttpResponse → Option Int
  | .json _ body => body.error.map JsonRpcErrorBody.code
  | .noContent _ => none

/-! The close installed by src/server.ts lines 85 to 89:
`server.close = async () => { await server.close(); await wss.close();
await context.close(); }`.  The reassigned function is what `server.close`
then denotes, so its first await re-enters it; the run is modelled with a
fuel bound on the number of re-entries, returning the released resources on
completion. -/

structure ServerResources where
  wssClosed : Bool
  contextClosed : Bool
deriving DecidableEq, Repr

def srcServerCloseRun : Nat → ServerResources → Option ServerResources
  | 0, _ => none
  | fuel + 1, st => srcServerCloseRun fuel st

/-! Theorems settling the claims. -/

/-- C1: the correlated send does not wait for a matching agent response — with
the default 30000 ms budget and a write callback that succeeds at 5 ms, the
promise resolves with the success placeholder for every list of inbound agent
responses, including none at all; the outcome never consults a correlation
identifier. -/
theorem c1_send_resolves_on_write_alone :
    ∀ rs : List AgentResponse,
      sendSocketMessage 30000 (some (5, none)) rs = SendOutcome.resolvedSuccess :=
  fun _ => rfl

/-- C2: when the whole 30000 ms default budget elapses with no matching agent
response ever arriving, the call does not fail with the timeout rejection —
the write callback (here succeeding at 2 ms) already resolved the promise and
cleared the timer. -/
theorem c2_no_timeout_failure_without_response :
    sendSocketMessage 30000 (some (2, none)) [] = SendOutcome.resolvedSuccess ∧
    sendSocketMessage 30000 (some (2, none)) [] ≠ SendOutcome.rejectedTimeout :=
  ⟨rfl, by decide⟩

/-- C3: when a connection is current and a new agent websocket arrives, the
connection handler emits the close instruction for the previous socket
strictly before installing the new socket as current, and running the trace
from any context state leaves exactly the new socket current. -/
theorem c3_previous_socket_closed_before_install :
    ∀ (old newWs : Nat) (ctx : Context),
      handleConnection (some old) newWs =
        [WsAction.closeSocket old, WsAction.installCurrent newWs,
         WsAction.registerCloseObserver newWs] ∧
      runActions ctx (handleConnection (some old) newWs) = ⟨some newWs⟩ :=
  fun _ _ _ => ⟨rfl, rfl⟩

/-- C5: the close installed by src/server.ts re-enters itself, so for every
fuel bound and every starting resource state the run never completes — the
websocket server and the context are never released and the call does not
terminate. -/
theorem c5_src_server_close_never_completes :
    ∀ (fuel : Nat) (st : ServerResources), srcServerCloseRun fuel st = none := by
  intro fuel
  induction fuel with
  | zero => intro st; rfl
  | succ n ih => intro st; exact ih st

/-- C6: for every tool name absent from the registry, the call-tool dispatch
returns the error result naming the unknown tool with `isError = true`; the
handler is total, so nothing is ever raised to the caller. -/
theorem c6_unknown_tool_yields_error_result :
    ∀ (tools : List Tool) (ctx : Context) (name : String) (args : ToolArgs),
      (∀ t ∈ tools, t.schema.name ≠ name) →
      callToolRequestHandler tools ctx name args =
        ⟨[⟨"text", "Tool \"" ++ name ++ "\" not found"⟩], true⟩ := by
  intro tools ctx name args h
  have hfind : tools.find? (fun t => t.schema.name == name) = none := by
    rw [List.find?_eq_none]
    intro t ht
    simpa using h t ht
  simp [callToolRequestHandler, hfind, toolNotFoundResult]

theorem c6_witness :
    (∀ t ∈ ([] : List Tool), t.schema.name ≠ "browser_fly") ∧
    callToolRequestHandler [] ⟨none⟩ "browser_fly" [] =
      ⟨[⟨"text", "Tool \"browser_fly\" not found"⟩], true⟩ :=
  ⟨by simp, c6_unknown_tool_yields_error_result [] ⟨none⟩ "browser_fly" [] (by simp)⟩

/-- C7: every error thrown during a tool handler's execution is caught at the
dispatch boundary and converted into a result with `isError = true` whose text
is the thrown error's rendering; no exception escapes the dispatch handler. -/
theorem c7_thrown_handler_error_is_caught :
    ∀ (tools : List Tool) (ctx : Context) (name : String) (args : ToolArgs)
      (tool : Tool) (e : String),
      tools.find? (fun t => t.schema.name == name) = some tool →
      tool.handle ctx args = HandlerOutcome.thrown e →
      callToolRequestHandler tools ctx name args = ⟨[⟨"text", e⟩], true⟩ := by
  intro tools ctx name args tool e hfind hthrow
  simp [callToolRequestHandler, hfind, hthrow, caughtErrorResult]

theorem c7_witness :
    callToolRequestHandler [clickToolModel] ⟨none⟩ "browser_click" [] =
      ⟨[⟨"text", "Error: No connection to browser extension"⟩], true⟩ :=
  c7_thrown_handler_error_is_caught [clickToolModel] ⟨none⟩ "browser_click" []
    clickToolModel "Error: No connection to browser extension" rfl rfl

/-- C4 fails on the legacy front door of src/index.ts: a well-formed
tools/call naming the registered click tool while no agent connection exists
does invoke the tool handler (with a fresh connection-less context), and the
response is the -32603 internal error, not -32000. -/
theorem c4_counterexample_legacy_front_door :
    (toolsCallLegacy [clickToolModel]
        (some ⟨"2.0", JsonId.num 7, "tools/call",
          some ⟨some "browser_click", []⟩⟩)).handlerInvoked = true ∧
    (toolsCallLegacy [clickToolModel]
        (some ⟨"2.0", JsonId.num 7, "tools/call",
          some ⟨some "browser_click", []⟩⟩)).response =
      HttpResponse.json 500 (createJsonRpcError (JsonId.num 7) (-32603)
        "Internal error" (some "Error: No connection to browser extension")) ∧
    (-32603 : Int) ≠ -32000 :=
  ⟨rfl, rfl, by decide⟩

/-- C4 (amended): on the websocket-sharing front door of part_001, a
well-formed tools/call naming a registered tool while no agent connection
exists answers 503 with the -32000 error and never invokes the handler. -/
theorem c4_amended_no_connection_returns_unavailable :
    ∀ (tools : List Tool) (r : JsonRpcRequest) (n : String) (tool : Tool),
      r.jsonrpc = "2.0" → r.method = "tools/call" →
      paramsName r.params = some n →
      toolsByName tools n = some tool →
      toolsCallEndpoint tools ⟨none⟩ (some r) =
        ⟨HttpResponse.json 503 (createJsonRpcError r.id (-32000)
            "No browser tab connected"
            (some "Connect the Browser MCP extension and try again")), false⟩ := by
  intro tools r n tool hj hm hp ht
  simp [toolsCallEndpoint, hj, hm, hp, ht, Context.hasWs]

theorem c4_amended_witness :
    toolsCallEndpoint [clickToolModel] ⟨none⟩
        (some ⟨"2.0", JsonId.str "w4", "tools/call",
          some ⟨some "browser_click", []⟩⟩) =
      ⟨HttpResponse.json 503 (createJsonRpcError (JsonId.str "w4") (-32000)
          "No browser tab connected"
          (some "Connect the Browser MCP extension and try again")), false⟩ :=
  c4_amended_no_connection_returns_unavailable [clickToolModel]
    ⟨"2.0", JsonId.str "w4", "tools/call", some ⟨some "browser_click", []⟩⟩
    "browser_click" clickToolModel rfl rfl rfl rfl

/-- C8: a tools/list request on the unified endpoint answers with exactly the
registry's schemas, unchanged and in order, for every context — connected or
not; the registered names are the twelve static tool names, in registration
order and without duplicates. -/
theorem c8_tools_list_exact_names :
    ∀ (tools : List Tool) (ctx : Context) (id : JsonId) (p : Option CallParams),
      tools.map Tool.schema = registeredToolSchemas →
      mcpPost tools ctx (some ⟨"2.0", id, "tools/list", p⟩) =
        HttpResponse.json 200 (createJsonRpcSuccess id
          (RpcResult.toolsList registeredToolSchemas)) ∧
      registeredToolSchemas.map ToolSchema.name =
        ["browser_navigate", "browser_go_back", "browser_go_forward",
         "browser_snapshot", "browser_click", "browser_hover", "browser_type",
         "browser_select_option", "browser_press_key", "browser_wait",
         "browser_get_console_logs", "browser_screenshot"] ∧
      (registeredToolSchemas.map ToolSchema.name).Nodup := by
  intro tools ctx id p h
  refine ⟨?_, by decide, by decide⟩
  simp [mcpPost, h]

theorem c8_witness :
    mcpPost registryToolsModel ⟨none⟩
        (some ⟨"2.0", JsonId.num 1, "tools/list", none⟩) =
      HttpResponse.json 200 (createJsonRpcSuccess (JsonId.num 1)
        (RpcResult.toolsList registeredToolSchemas)) ∧
    registeredToolSchemas.map ToolSchema.name =
      ["browser_navigate", "browser_go_back", "browser_go_forward",
       "browser_snapshot", "browser_click", "browser_hover", "browser_type",
       "browser_select_option", "browser_press_key", "browser_wait",
       "browser_get_console_logs", "browser_screenshot"] ∧
    (registeredToolSchemas.map ToolSchema.name).Nodup :=
  c8_tools_list_exact_names registryToolsModel ⟨none⟩ (JsonId.num 1) none rfl

/-- C9 fails: a malformed envelope (protocol tag "1.0") carrying the perfectly
determinable id 0 is answered with id null — the `request?.id || null`
fallback collapses the falsy id 0 to null. -/
theorem c9_counterexample_falsy_id_collapsed :
    mcpPost [] ⟨none⟩ (some ⟨"1.0", JsonId.num 0, "ping", none⟩) =
      HttpResponse.json 400 (createJsonRpcError JsonId.null (-32600)
        "Invalid Request" (some "Expected JSON-RPC 2.0 request")) ∧
    JsonId.null ≠ JsonId.num 0 :=
  ⟨rfl, by decide⟩

/-- C9 (amended): for every well-formed envelope (protocol tag "2.0") whose
routed handler does not throw, every JSON body the unified endpoint answers
with echoes the request id verbatim — including the falsy ids 0 and the empty
string; only the malformed-envelope and internal-error paths pass the id
through the `id || null` fallback, which collapses falsy ids to null. -/
theorem c9_amended_id_echoed_verbatim :
    ∀ (tools : List Tool) (ctx : Context) (r : JsonRpcRequest) (s : Nat)
      (resp : JsonRpcResponse),
      r.jsonrpc = "2.0" →
      (∀ t ∈ tools, ∀ (args : ToolArgs) (e : String),
        t.handle ctx args ≠ HandlerOutcome.thrown e) →
      mcpPost tools ctx (some r) = HttpResponse.json s resp →
      resp.id = r.id := by
  intro tools ctx r s resp hj hnothrow heq
  simp only [mcpPost] at heq
  rw [hj] at heq
  simp only [bne_self_eq_false, Bool.false_eq_true, ite_false] at heq
  repeat' split at heq
  any_goals (injection heq with h1 h2; subst h2; rfl)
  any_goals cases heq
  rename_i xm hmeth xp n hn xt tool hfound hws xh err hthrow
  unfold toolsByName at hfound
  exact absurd hthrow
    (hnothrow tool (List.mem_reverse.mp (List.mem_of_find?_eq_some hfound)) _ _)

theorem c9_amended_witness :
    mcpPost [] ⟨none⟩ (some ⟨"2.0", JsonId.num 0, "ping", none⟩) =
      HttpResponse.json 200 (createJsonRpcSuccess (JsonId.num 0)
        RpcResult.emptyObj) ∧
    (createJsonRpcSuccess (JsonId.num 0) RpcResult.emptyObj).id = JsonId.num 0 :=
  ⟨rfl, c9_amended_id_echoed_verbatim [] ⟨none⟩
    ⟨"2.0", JsonId.num 0, "ping", none⟩ 200
    (createJsonRpcSuccess (JsonId.num 0) RpcResult.emptyObj) rfl (by simp) rfl⟩

/-- C10: in both part_001 tools/call handlers the unknown-tool lookup precedes
the connection check — a present name missing from the registry is answered
with the -32601 unknown-tool error for every context, connected or not — and a
-32000 response can only arise after the registry lookup succeeded, so it is
only ever returned for registered names. -/
theorem c10_unknown_tool_check_precedes_connection_check :
    (∀ (tools : List Tool) (ctx : Context) (r : JsonRpcRequest) (n : String),
      r.jsonrpc = "2.0" → r.method = "tools/call" →
      paramsName r.params = some n →
      toolsByName tools n = none →
      toolsCallEndpoint tools ctx (some r) =
        ⟨HttpResponse.json 404 (createJsonRpcError r.id (-32601) "Method not found"
            (some ("Tool '" ++ n ++ "' not found"))), false⟩ ∧
      mcpPost tools ctx (some r) =
        HttpResponse.json 404 (createJsonRpcError r.id (-32601) "Method not found"
            (some ("Tool '" ++ n ++ "' not found")))) ∧
    (∀ (tools : List Tool) (ctx : Context) (req : Option JsonRpcRequest),
      responseErrorCode (toolsCallEndpoint tools ctx req).response = some (-32000) →
      ∃ (r : JsonRpcRequest) (n : String) (tool : Tool),
        req = some r ∧ paramsName r.params = some n ∧
        toolsByName tools n = some tool) ∧
    (∀ (tools : List Tool) (ctx : Context) (req : Option JsonRpcRequest),
      responseErrorCode (mcpPost tools ctx req) = some (-32000) →
      ∃ (r : JsonRpcRequest) (n : String) (tool : Tool),
        req = some r ∧ paramsName r.params = some n ∧
        toolsByName tools n = some tool) := by
  refine ⟨?_, ?_, ?_⟩
  · intro tools ctx r n hj hm hp ht
    constructor
    · simp [toolsCallEndpoint, hj, hm, hp, ht]
    · simp [mcpPost, hj, hm, hp, ht]
  · intro tools ctx req h
    match req with
    | none => simp [toolsCallEndpoint, responseErrorCode, createJsonRpcError] at h
    | some r =>
      unfold toolsCallEndpoint at h
      repeat' split at h
      all_goals
        simp_all [responseErrorCode, createJsonRpcError, createJsonRpcSuccess]
  · intro tools ctx req h
    match req with
    | none => simp [mcpPost, responseErrorCode, createJsonRpcError] at h
    | some r =>
      unfold mcpPost at h
      repeat' split at h
      all_goals
        simp_all [responseErrorCode, createJsonRpcError, createJsonRpcSuccess]

theorem c10_witness :
    toolsCallEndpoint [] ⟨none⟩
        (some ⟨"2.0", JsonId.num 3, "tools/call",
          some ⟨some "browser_fly", []⟩⟩) =
      ⟨HttpResponse.json 404 (createJsonRpcError (JsonId.num 3) (-32601)
          "Method not found" (some "Tool 'browser_fly' not found")), false⟩ ∧
    mcpPost [] ⟨none⟩
        (some ⟨"2.0", JsonId.num 3, "tools/call",
          some ⟨some "browser_fly", []⟩⟩) =
      HttpResponse.json 404 (createJsonRpcError (JsonId.num 3) (-32601)
        "Method not found" (some "Tool 'browser_fly' not found")) :=
  c10_unknown_tool_check_precedes_connection_check.1 [] ⟨none⟩
    ⟨"2.0", JsonId.num 3, "tools/call", some ⟨some "browser_fly", []⟩⟩
    "browser_fly" rfl rfl rfl rfl

end BrowserMcp
